import Mathlib

/-!
Shallow embedding of `src/pymaker/auctions.py`: the `Flipper` (collateral),
`Flapper` (surplus) and `Flopper` (debt) auction clients.

Each Python method is translated one-for-one into a state-passing function:
a method takes the fields the client object carries (`ClientState`) and the
remote contract state reachable through `self._contract` (`Ledger`), and
returns a `MethodResult` recording the value the body returns (or the error
it raises), the client object's fields when the body finishes, and the list
of ledger calls the body performed, in order.  The collaborators imported
from outside `src/` (`Wad`, `Address`, `Transact`, the error taxonomy) are
modelled from the spec, as noted on each of them.
-/

/-- Modelled from the spec: the fixed-point quantity type `Wad` (spec section 1,
the opaque 256-bit-safe scaled integer "Amount").  Its definition lives outside
`src/`; the source only constructs `Wad(x)` and projects `.value`. -/
structure Wad where
  value : Int
deriving DecidableEq, Repr

/-- Modelled from the spec: the 20-byte participant/contract identifier (spec
section 6).  Outside `src/`; the source only constructs `Address(x)` and
projects `.address`. -/
structure Address where
  address : String
deriving DecidableEq, Repr

/-- One positional argument of a contract call, as assembled at the `Transact`
call sites in the source: either a plain integer (`id`, `tab`, `lot.value`,
`bid.value`) or an address string (`lad.address`, `gal.address`). -/
inductive CallArg where
  | int (i : Int)
  | addr (a : String)
deriving DecidableEq, BEq, Repr

/-- The fields a client object carries after `__init__` (auctions.py lines
47-53, 176-182 and 332-338): `self.web3`, `self.address` and `self._contract`.
The web3 handle and the contract binding are opaque to the source, so they are
modelled as opaque numeric handles. -/
structure ClientState where
  web3 : Nat
  address : Address
  contract : Nat
deriving DecidableEq, Repr

/-- A call made through `self._contract.call()` somewhere in a method body. -/
inductive LedgerCall where
  | era
  | pie
  | gem
  | beg
  | ttl
  | tau
  | kicks
  | bids (id : Int)
deriving DecidableEq, Repr

/-- A raw value inside the array the contract's `bids(id)` getter returns. -/
inductive RawValue where
  | int (i : Int)
  | addr (a : String)
deriving DecidableEq, Repr

/-- Modelled from the spec (section 6, external interfaces): the remote
contract state reachable through `self._contract.call()`.  `bids` is the raw
per-id record getter; it is a ledger-side mapping, so it yields an array for
every id — the all-zero record for ids never written. -/
structure Ledger where
  era : Int
  beg : Int
  ttl : Int
  tau : Int
  kicks : Int
  bids : Int → List RawValue

/-- Modelled from the spec: the error taxonomy of section 7.  The source code
of `auctions.py` raises none of the validation errors; the constructors exist
so the spec's failure claims can be stated against the embedded methods.
`decodeError` stands for the exception a shape-mismatched `bids` array raises
while being decoded. -/
inductive SpecError where
  | auctionNotActive
  | auctionStillActive
  | bidTooLow
  | lotNotLower
  | lotMismatch
  | bidMismatch
  | invalidParameters
  | notFound
  | unavailable
  | decodeError
deriving DecidableEq, Repr

/-- Modelled from the spec: the `PendingTransaction` request object (spec
section 2).  The source constructs `Transact(self, self.web3, self.abi,
self.address, self._contract, name, args)`; the fields record those call-site
arguments (the `self` back-reference is not modelled). -/
structure Transact where
  web3 : Nat
  abi : String
  address : Address
  contract : Nat
  functionName : String
  parameters : List CallArg
deriving DecidableEq, Repr

/-- Result of running one Python method body: the returned (or raised) value,
the client object's fields when the body finishes, and the ledger calls the
body performed, in order. -/
structure MethodResult (α : Type) where
  ret : Except SpecError α
  self : ClientState
  calls : List LedgerCall

/-- A method name of one of the three client classes, used to state which
methods each class declares.  `init` and `repr` stand for the dunder methods. -/
inductive MethodName where
  | deploy
  | init
  | approve
  | era
  | pie
  | gem
  | beg
  | ttl
  | tau
  | kicks
  | bids
  | kick
  | tend
  | dent
  | deal
  | repr
deriving DecidableEq, Repr

/-- Token standing for the ABI resource loaded by
`Contract._load_abi(__name__, 'abi/Flipper.abi')` (line 36); the loader lives
outside `src/`, so the loaded content is opaque. -/
def Flipper.abi : String := "abi/Flipper.abi"

/-- Methods declared in the class body of `Flipper` (lines 25-138), in
declaration order.  Note: no `kicks` and no `bids` method is declared. -/
def Flipper.methodNames : List MethodName :=
  [.deploy, .init, .era, .pie, .gem, .beg, .ttl, .tau, .kick, .tend, .dent, .deal, .repr]

/-- Flipper.era (lines 55-61): `return self._contract.call().era()`. -/
def Flipper.era (s : ClientState) (L : Ledger) : MethodResult Int :=
  { ret := .ok L.era, self := s, calls := [.era] }

/-- Flipper.beg (lines 81-87): `return Wad(self._contract.call().beg())`. -/
def Flipper.beg (s : ClientState) (L : Ledger) : MethodResult Wad :=
  { ret := .ok ⟨L.beg⟩, self := s, calls := [.beg] }

/-- Flipper.ttl (lines 89-95): `return int(self._contract.call().ttl())`. -/
def Flipper.ttl (s : ClientState) (L : Ledger) : MethodResult Int :=
  { ret := .ok L.ttl, self := s, calls := [.ttl] }

/-- Flipper.tau (lines 97-103): `return int(self._contract.call().tau())`. -/
def Flipper.tau (s : ClientState) (L : Ledger) : MethodResult Int :=
  { ret := .ok L.tau, self := s, calls := [.tau] }

/-- Flipper.kick (lines 105-116): after `isinstance` assertions (enforced here
by the argument types), returns
`Transact(..., 'kick', [lad.address, gal.address, tab, lot.value, bid.value])`. -/
def Flipper.kick (s : ClientState) (L : Ledger) (lad gal : Address) (tab : Int)
    (lot bid : Wad) : MethodResult Transact :=
  { ret := .ok ⟨s.web3, Flipper.abi, s.address, s.contract, "kick",
      [.addr lad.address, .addr gal.address, .int tab, .int lot.value, .int bid.value]⟩,
    self := s, calls := [] }

/-- Flipper.tend (lines 118-123): after `isinstance` assertions, returns
`Transact(..., 'tend', [id, lot.value, bid.value])`. -/
def Flipper.tend (s : ClientState) (L : Ledger) (id : Int) (lot bid : Wad) :
    MethodResult Transact :=
  { ret := .ok ⟨s.web3, Flipper.abi, s.address, s.contract, "tend",
      [.int id, .int lot.value, .int bid.value]⟩,
    self := s, calls := [] }

/-- Flipper.dent (lines 125-130): after `isinstance` assertions, returns
`Transact(..., 'dent', [id, lot.value, bid.value])`. -/
def Flipper.dent (s : ClientState) (L : Ledger) (id : Int) (lot bid : Wad) :
    MethodResult Transact :=
  { ret := .ok ⟨s.web3, Flipper.abi, s.address, s.contract, "dent",
      [.int id, .int lot.value, .int bid.value]⟩,
    self := s, calls := [] }

/-- Flipper.deal (lines 132-135): after the `isinstance` assertion, returns
`Transact(..., 'deal', [id])`. -/
def Flipper.deal (s : ClientState) (L : Ledger) (id : Int) : MethodResult Transact :=
  { ret := .ok ⟨s.web3, Flipper.abi, s.address, s.contract, "deal", [.int id]⟩,
    self := s, calls := [] }

/-- Token standing for the ABI resource loaded at line 152. -/
def Flapper.abi : String := "abi/Flapper.abi"

/-- Methods declared in the class body of `Flapper` (lines 141-294), in
declaration order (the nested class `Bid` is embedded as `Flapper.Bid`). -/
def Flapper.methodNames : List MethodName :=
  [.deploy, .init, .approve, .era, .pie, .gem, .beg, .ttl, .tau, .kicks, .bids,
   .kick, .tend, .deal, .repr]

/-- Flapper.Bid (lines 155-167): the decoded auction record, fields `bid`,
`lot`, `guy`, `tic`, `end` (the last is called `end_` here because `end` is a
Lean keyword). -/
structure Flapper.Bid where
  bid : Wad
  lot : Wad
  guy : Address
  tic : Int
  end_ : Int
deriving DecidableEq, Repr

/-- Flapper.era (lines 197-203). -/
def Flapper.era (s : ClientState) (L : Ledger) : MethodResult Int :=
  { ret := .ok L.era, self := s, calls := [.era] }

/-- Flapper.beg (lines 221-227). -/
def Flapper.beg (s : ClientState) (L : Ledger) : MethodResult Wad :=
  { ret := .ok ⟨L.beg⟩, self := s, calls := [.beg] }

/-- Flapper.ttl (lines 229-235). -/
def Flapper.ttl (s : ClientState) (L : Ledger) : MethodResult Int :=
  { ret := .ok L.ttl, self := s, calls := [.ttl] }

/-- Flapper.tau (lines 237-243). -/
def Flapper.tau (s : ClientState) (L : Ledger) : MethodResult Int :=
  { ret := .ok L.tau, self := s, calls := [.tau] }

/-- Flapper.kicks (lines 245-251): `return int(self._contract.call().kicks())`. -/
def Flapper.kicks (s : ClientState) (L : Ledger) : MethodResult Int :=
  { ret := .ok L.kicks, self := s, calls := [.kicks] }

/-- Decoding step of Flapper.bids (lines 266-270):
`Flapper.Bid(bid=Wad(array[0]), lot=Wad(array[1]), guy=Address(array[2]),
tic=int(array[3]), end=int(array[4]))`.  Position 0 must be an integer (fed to
`Wad`), position 1 an integer (fed to `Wad`), position 2 an address string
(fed to `Address`), positions 3 and 4 integers (fed to `int`); a missing
position or a wrong-kinded value raises, which is modelled as `decodeError`. -/
def Flapper.decodeBid : List RawValue → Except SpecError Flapper.Bid
  | RawValue.int b :: RawValue.int l :: RawValue.addr g :: RawValue.int t ::
      RawValue.int e :: _ =>
    .ok { bid := ⟨b⟩, lot := ⟨l⟩, guy := ⟨g⟩, tic := t, end_ := e }
  | _ => .error .decodeError

/-- Flapper.bids (lines 253-270): `array = self._contract.call().bids(id)`,
then decode `array` into a `Flapper.Bid`. -/
def Flapper.bids (s : ClientState) (L : Ledger) (id : Int) : MethodResult Flapper.Bid :=
  { ret := Flapper.decodeBid (L.bids id), self := s, calls := [.bids id] }

/-- Flapper.kick (lines 272-279): after `isinstance` assertions, returns
`Transact(..., 'kick', [gal.address, lot.value, bid.value])`. -/
def Flapper.kick (s : ClientState) (L : Ledger) (gal : Address) (lot bid : Wad) :
    MethodResult Transact :=
  { ret := .ok ⟨s.web3, Flapper.abi, s.address, s.contract, "kick",
      [.addr gal.address, .int lot.value, .int bid.value]⟩,
    self := s, calls := [] }

/-- Flapper.tend (lines 281-286): after `isinstance` assertions, returns
`Transact(..., 'tend', [id, lot.value, bid.value])`. -/
def Flapper.tend (s : ClientState) (L : Ledger) (id : Int) (lot bid : Wad) :
    MethodResult Transact :=
  { ret := .ok ⟨s.web3, Flapper.abi, s.address, s.contract, "tend",
      [.int id, .int lot.value, .int bid.value]⟩,
    self := s, calls := [] }

/-- Flapper.deal (lines 288-291): after the `isinstance` assertion, returns
`Transact(..., 'deal', [id])`. -/
def Flapper.deal (s : ClientState) (L : Ledger) (id : Int) : MethodResult Transact :=
  { ret := .ok ⟨s.web3, Flapper.abi, s.address, s.contract, "deal", [.int id]⟩,
    self := s, calls := [] }

/-- Token standing for the ABI resource loaded at line 308. -/
def Flopper.abi : String := "abi/Flopper.abi"

/-- Methods declared in the class body of `Flopper` (lines 297-450), in
declaration order (the nested class `Bid` is embedded as `Flopper.Bid`). -/
def Flopper.methodNames : List MethodName :=
  [.deploy, .init, .approve, .era, .pie, .gem, .beg, .ttl, .tau, .kicks, .bids,
   .kick, .dent, .deal, .repr]

/-- Flopper.Bid (lines 311-323): same five fields as `Flapper.Bid`. -/
structure Flopper.Bid where
  bid : Wad
  lot : Wad
  guy : Address
  tic : Int
  end_ : Int
deriving DecidableEq, Repr

/-- Flopper.era (lines 353-359). -/
def Flopper.era (s : ClientState) (L : Ledger) : MethodResult Int :=
  { ret := .ok L.era, self := s, calls := [.era] }

/-- Flopper.beg (lines 377-383). -/
def Flopper.beg (s : ClientState) (L : Ledger) : MethodResult Wad :=
  { ret := .ok ⟨L.beg⟩, self := s, calls := [.beg] }

/-- Flopper.ttl (lines 385-391). -/
def Flopper.ttl (s : ClientState) (L : Ledger) : MethodResult Int :=
  { ret := .ok L.ttl, self := s, calls := [.ttl] }

/-- Flopper.tau (lines 393-399). -/
def Flopper.tau (s : ClientState) (L : Ledger) : MethodResult Int :=
  { ret := .ok L.tau, self := s, calls := [.tau] }

/-- Flopper.kicks (lines 401-407). -/
def Flopper.kicks (s : ClientState) (L : Ledger) : MethodResult Int :=
  { ret := .ok L.kicks, self := s, calls := [.kicks] }

/-- Decoding step of Flopper.bids (lines 422-426): character-for-character the
same decoding as Flapper's, targeting `Flopper.Bid`. -/
def Flopper.decodeBid : List RawValue → Except SpecError Flopper.Bid
  | RawValue.int b :: RawValue.int l :: RawValue.addr g :: RawValue.int t ::
      RawValue.int e :: _ =>
    .ok { bid := ⟨b⟩, lot := ⟨l⟩, guy := ⟨g⟩, tic := t, end_ := e }
  | _ => .error .decodeError

/-- Flopper.bids (lines 409-426). -/
def Flopper.bids (s : ClientState) (L : Ledger) (id : Int) : MethodResult Flopper.Bid :=
  { ret := Flopper.decodeBid (L.bids id), self := s, calls := [.bids id] }

/-- Flopper.kick (lines 428-435): after `isinstance` assertions, returns
`Transact(..., 'kick', [gal.address, lot.value, bid.value])` — the lot value
is placed before the bid value. -/
def Flopper.kick (s : ClientState) (L : Ledger) (gal : Address) (lot bid : Wad) :
    MethodResult Transact :=
  { ret := .ok ⟨s.web3, Flopper.abi, s.address, s.contract, "kick",
      [.addr gal.address, .int lot.value, .int bid.value]⟩,
    self := s, calls := [] }

/-- Flopper.dent (lines 437-442): after `isinstance` assertions, returns
`Transact(..., 'dent', [id, lot.value, bid.value])`. -/
def Flopper.dent (s : ClientState) (L : Ledger) (id : Int) (lot bid : Wad) :
    MethodResult Transact :=
  { ret := .ok ⟨s.web3, Flopper.abi, s.address, s.contract, "dent",
      [.int id, .int lot.value, .int bid.value]⟩,
    self := s, calls := [] }

/-- Flopper.deal (lines 444-447): after the `isinstance` assertion, returns
`Transact(..., 'deal', [id])`. -/
def Flopper.deal (s : ClientState) (L : Ledger) (id : Int) : MethodResult Transact :=
  { ret := .ok ⟨s.web3, Flopper.abi, s.address, s.contract, "deal", [.int id]⟩,
    self := s, calls := [] }

/-- Modelled from the spec: the section 3 activity predicate — an auction is
active iff `now < hardDeadline` and (`bidDeadline == 0` or `now < bidDeadline`).
The source contains no activity check; this definition exists only so claims
about validation can be stated and compared against the code. -/
def specIsActive (bidDeadline hardDeadline now : Int) : Bool :=
  now < hardDeadline && (bidDeadline == 0 || now < bidDeadline)

/-- Field tuple of a decoded surplus-auction record, for comparing the two
decoders field by field. -/
def Flapper.toTuple (b : Flapper.Bid) : Wad × Wad × Address × Int × Int :=
  (b.bid, b.lot, b.guy, b.tic, b.end_)

/-- Field tuple of a decoded debt-auction record. -/
def Flopper.toTuple (b : Flopper.Bid) : Wad × Wad × Address × Int × Int :=
  (b.bid, b.lot, b.guy, b.tic, b.end_)

/-- A concrete client state used by the concrete-input theorems. -/
def sampleClient : ClientState :=
  { web3 := 0, address := { address := "0xcontract" }, contract := 0 }

/-- A concrete beneficiary address. -/
def sampleGal : Address := { address := "0xgal" }

/-- A concrete forced-bidder address. -/
def sampleLad : Address := { address := "0xlad" }

/-- The zero address string a ledger mapping getter yields for an unset field. -/
def zeroAddressString : String := "0x0000000000000000000000000000000000000000"

/-- The all-zero raw record a ledger-side mapping yields for an id that was
never written. -/
def zeroRaw : List RawValue :=
  [RawValue.int 0, RawValue.int 0, RawValue.addr zeroAddressString,
   RawValue.int 0, RawValue.int 0]

/-- Modelled from the spec boundary: a fresh mechanism on which no auction was
ever created (`kicks = 0`), whose mapping getter yields the zero record for
every id. -/
def emptyLedger : Ledger :=
  { era := 30, beg := 0, ttl := 300, tau := 3600, kicks := 0, bids := fun _ => zeroRaw }

/-- A concrete raw record for auction id 1: current bid 50, lot 100, no high
bidder recorded, `tic = 10`, `end = 20`. -/
def staleRaw : List RawValue :=
  [RawValue.int 50, RawValue.int 100, RawValue.addr zeroAddressString,
   RawValue.int 10, RawValue.int 20]

/-- A concrete ledger whose current time (`era = 30`) lies past both deadlines
of the record for auction id 1 (`tic = 10`, `end = 20`): that auction is not
active. -/
def staleLedger : Ledger :=
  { era := 30, beg := 50000000000000000, ttl := 300, tau := 3600, kicks := 1,
    bids := fun _ => staleRaw }

/-- A concrete well-shaped raw record used to witness the decode claims. -/
def sampleRaw : List RawValue :=
  [RawValue.int 11, RawValue.int 22, RawValue.addr zeroAddressString,
   RawValue.int 33, RawValue.int 44]

/-- The record `sampleRaw` decodes to, as a surplus-auction record. -/
def sampleFlapperBid : Flapper.Bid :=
  { bid := ⟨11⟩, lot := ⟨22⟩, guy := ⟨zeroAddressString⟩, tic := 33, end_ := 44 }

/-- The record `sampleRaw` decodes to, as a debt-auction record. -/
def sampleFlopperBid : Flopper.Bid :=
  { bid := ⟨11⟩, lot := ⟨22⟩, guy := ⟨zeroAddressString⟩, tic := 33, end_ := 44 }

/-- Helper: whenever Flapper's decoder succeeds, the raw array starts with the
five positions (int bid, int lot, addr guy, int tic, int end) that produced
the record's fields. -/
theorem flapperDecodeBid_ok (a : List RawValue) (b : Flapper.Bid)
    (h : Flapper.decodeBid a = Except.ok b) :
    a.get? 0 = some (RawValue.int b.bid.value) ∧
    a.get? 1 = some (RawValue.int b.lot.value) ∧
    a.get? 2 = some (RawValue.addr b.guy.address) ∧
    a.get? 3 = some (RawValue.int b.tic) ∧
    a.get? 4 = some (RawValue.int b.end_) ∧
    Flapper.decodeBid (a.take 5) = Except.ok b := by
  rcases a with _ | ⟨⟨i0⟩ | ⟨s0⟩, _ | ⟨⟨i1⟩ | ⟨s1⟩, _ | ⟨⟨i2⟩ | ⟨s2⟩,
    _ | ⟨⟨i3⟩ | ⟨s3⟩, _ | ⟨⟨i4⟩ | ⟨s4⟩, rest⟩⟩⟩⟩⟩ <;>
    injection h <;> rename_i h2 <;> subst h2 <;> exact ⟨rfl, rfl, rfl, rfl, rfl, rfl⟩

/-- Helper: same statement for Flopper's decoder. -/
theorem flopperDecodeBid_ok (a : List RawValue) (b : Flopper.Bid)
    (h : Flopper.decodeBid a = Except.ok b) :
    a.get? 0 = some (RawValue.int b.bid.value) ∧
    a.get? 1 = some (RawValue.int b.lot.value) ∧
    a.get? 2 = some (RawValue.addr b.guy.address) ∧
    a.get? 3 = some (RawValue.int b.tic) ∧
    a.get? 4 = some (RawValue.int b.end_) ∧
    Flopper.decodeBid (a.take 5) = Except.ok b := by
  rcases a with _ | ⟨⟨i0⟩ | ⟨s0⟩, _ | ⟨⟨i1⟩ | ⟨s1⟩, _ | ⟨⟨i2⟩ | ⟨s2⟩,
    _ | ⟨⟨i3⟩ | ⟨s3⟩, _ | ⟨⟨i4⟩ | ⟨s4⟩, rest⟩⟩⟩⟩⟩ <;>
    injection h <;> rename_i h2 <;> subst h2 <;> exact ⟨rfl, rfl, rfl, rfl, rfl, rfl⟩

/-- Helper: Flapper's decoder either raises the decode error or returns a
record; no other error (in particular no `notFound`) can come out of it. -/
theorem flapperDecodeBid_classify (a : List RawValue) :
    Flapper.decodeBid a = Except.error SpecError.decodeError ∨
      ∃ b, Flapper.decodeBid a = Except.ok b := by
  rcases a with _ | ⟨⟨i0⟩ | ⟨s0⟩, _ | ⟨⟨i1⟩ | ⟨s1⟩, _ | ⟨⟨i2⟩ | ⟨s2⟩,
    _ | ⟨⟨i3⟩ | ⟨s3⟩, _ | ⟨⟨i4⟩ | ⟨s4⟩, rest⟩⟩⟩⟩⟩ <;>
    first
      | exact Or.inl rfl
      | exact Or.inr ⟨_, rfl⟩

/-- Helper: same classification for Flopper's decoder. -/
theorem flopperDecodeBid_classify (a : List RawValue) :
    Flopper.decodeBid a = Except.error SpecError.decodeError ∨
      ∃ b, Flopper.decodeBid a = Except.ok b := by
  rcases a with _ | ⟨⟨i0⟩ | ⟨s0⟩, _ | ⟨⟨i1⟩ | ⟨s1⟩, _ | ⟨⟨i2⟩ | ⟨s2⟩,
    _ | ⟨⟨i3⟩ | ⟨s3⟩, _ | ⟨⟨i4⟩ | ⟨s4⟩, rest⟩⟩⟩⟩⟩ <;>
    first
      | exact Or.inl rfl
      | exact Or.inr ⟨_, rfl⟩

/-- Claim C1, counterexample: auction 1 on `staleLedger` is past both deadlines
(`tic = 10`, `end = 20`, current time `era = 30`), so it is not active per the
spec's activity predicate; yet `Flapper.tend` re-reads nothing (its call list
is empty) and returns a `PendingTransaction` instead of failing with a
validator error. -/
theorem claim_C1_counterexample :
    specIsActive 10 20 30 = false ∧
    staleLedger.era = 30 ∧
    staleLedger.bids 1 = staleRaw ∧
    (Flapper.tend sampleClient staleLedger 1 ⟨100⟩ ⟨60⟩).ret =
      Except.ok ⟨sampleClient.web3, Flapper.abi, sampleClient.address,
        sampleClient.contract, "tend", [CallArg.int 1, CallArg.int 100, CallArg.int 60]⟩ ∧
    (Flapper.tend sampleClient staleLedger 1 ⟨100⟩ ⟨60⟩).calls = [] :=
  ⟨by decide, rfl, rfl, rfl, rfl⟩

/-- Claim C1, amended: every mutating operation of every variant performs no
ledger read and no validation at all; it unconditionally returns the
`PendingTransaction` for its contract call, whatever the auction's state is. -/
theorem claim_C1_amended :
    ∀ (s : ClientState) (L : Ledger) (lad gal : Address) (tab id : Int) (lot bid : Wad),
    Flipper.kick s L lad gal tab lot bid =
      ⟨.ok ⟨s.web3, Flipper.abi, s.address, s.contract, "kick",
        [.addr lad.address, .addr gal.address, .int tab, .int lot.value, .int bid.value]⟩,
       s, []⟩ ∧
    Flipper.tend s L id lot bid =
      ⟨.ok ⟨s.web3, Flipper.abi, s.address, s.contract, "tend",
        [.int id, .int lot.value, .int bid.value]⟩, s, []⟩ ∧
    Flipper.dent s L id lot bid =
      ⟨.ok ⟨s.web3, Flipper.abi, s.address, s.contract, "dent",
        [.int id, .int lot.value, .int bid.value]⟩, s, []⟩ ∧
    Flipper.deal s L id =
      ⟨.ok ⟨s.web3, Flipper.abi, s.address, s.contract, "deal", [.int id]⟩, s, []⟩ ∧
    Flapper.kick s L gal lot bid =
      ⟨.ok ⟨s.web3, Flapper.abi, s.address, s.contract, "kick",
        [.addr gal.address, .int lot.value, .int bid.value]⟩, s, []⟩ ∧
    Flapper.tend s L id lot bid =
      ⟨.ok ⟨s.web3, Flapper.abi, s.address, s.contract, "tend",
        [.int id, .int lot.value, .int bid.value]⟩, s, []⟩ ∧
    Flapper.deal s L id =
      ⟨.ok ⟨s.web3, Flapper.abi, s.address, s.contract, "deal", [.int id]⟩, s, []⟩ ∧
    Flopper.kick s L gal lot bid =
      ⟨.ok ⟨s.web3, Flopper.abi, s.address, s.contract, "kick",
        [.addr gal.address, .int lot.value, .int bid.value]⟩, s, []⟩ ∧
    Flopper.dent s L id lot bid =
      ⟨.ok ⟨s.web3, Flopper.abi, s.address, s.contract, "dent",
        [.int id, .int lot.value, .int bid.value]⟩, s, []⟩ ∧
    Flopper.deal s L id =
      ⟨.ok ⟨s.web3, Flopper.abi, s.address, s.contract, "deal", [.int id]⟩, s, []⟩ :=
  fun _ _ _ _ _ _ _ _ => ⟨rfl, rfl, rfl, rfl, rfl, rfl, rfl, rfl, rfl, rfl⟩

/-- Claim C2, counterexample: the record of auction 1 on `staleLedger` is not
active (both deadlines passed at `era = 30`) and the proposed bid 51 is below
the minimum increase over the current bid 50 at `beg = 5%`; the claim says the
raise-bid validation fails, but `Flipper.tend` returns the pending transaction. -/
theorem claim_C2_counterexample :
    specIsActive 10 20 30 = false ∧
    staleLedger.era = 30 ∧
    staleLedger.bids 1 = staleRaw ∧
    (Flipper.tend sampleClient staleLedger 1 ⟨100⟩ ⟨51⟩).ret =
      Except.ok ⟨sampleClient.web3, Flipper.abi, sampleClient.address,
        sampleClient.contract, "tend", [CallArg.int 1, CallArg.int 100, CallArg.int 51]⟩ :=
  ⟨by decide, rfl, rfl, rfl⟩

/-- Claim C2, amended: the collateral client's raise-bid method performs no
validation of any kind — no activity, minimum-increase, tab or lot check — and
returns the pending `tend(id, lot, bid)` transaction for every input, reading
nothing from the ledger. -/
theorem claim_C2_amended :
    ∀ (s : ClientState) (L : Ledger) (id : Int) (lot bid : Wad),
    Flipper.tend s L id lot bid =
      ⟨.ok ⟨s.web3, Flipper.abi, s.address, s.contract, "tend",
        [.int id, .int lot.value, .int bid.value]⟩, s, []⟩ :=
  fun _ _ _ _ _ => rfl

/-- Claim C3, counterexample: the collateral variant `Flipper` declares neither
a `bids` (per-id record query) nor a `kicks` (auction count) method. -/
theorem claim_C3_counterexample :
    (Flipper.methodNames.contains MethodName.bids) = false ∧
    (Flipper.methodNames.contains MethodName.kicks) = false := by
  decide

/-- Claim C3, amended: all three variants expose the mechanism parameters
(`beg`, `ttl`, `tau`) and a settle operation (`deal`); the surplus and debt
variants additionally expose the per-id record query (`bids`) and the auction
count (`kicks`), but the collateral variant exposes neither of those two. -/
theorem claim_C3_amended :
    (Flipper.methodNames.contains MethodName.beg) = true ∧
    (Flipper.methodNames.contains MethodName.ttl) = true ∧
    (Flipper.methodNames.contains MethodName.tau) = true ∧
    (Flipper.methodNames.contains MethodName.deal) = true ∧
    (Flipper.methodNames.contains MethodName.bids) = false ∧
    (Flipper.methodNames.contains MethodName.kicks) = false ∧
    (Flapper.methodNames.contains MethodName.beg) = true ∧
    (Flapper.methodNames.contains MethodName.ttl) = true ∧
    (Flapper.methodNames.contains MethodName.tau) = true ∧
    (Flapper.methodNames.contains MethodName.kicks) = true ∧
    (Flapper.methodNames.contains MethodName.bids) = true ∧
    (Flapper.methodNames.contains MethodName.deal) = true ∧
    (Flopper.methodNames.contains MethodName.beg) = true ∧
    (Flopper.methodNames.contains MethodName.ttl) = true ∧
    (Flopper.methodNames.contains MethodName.tau) = true ∧
    (Flopper.methodNames.contains MethodName.kicks) = true ∧
    (Flopper.methodNames.contains MethodName.bids) = true ∧
    (Flopper.methodNames.contains MethodName.deal) = true := by
  decide

/-- Claim C4: every pending transaction produced by a bid or settle operation
carries exactly the mechanism's call interface: `tend(id, lot, bid)` for
raise-bid, `dent(id, lot, bid)` for lower-lot and `deal(id)` for settle, the
arguments in that fixed order, across all three variants. -/
theorem claim_C4 :
    ∀ (s : ClientState) (L : Ledger) (id : Int) (lot bid : Wad),
    (Flipper.tend s L id lot bid).ret =
      Except.ok ⟨s.web3, Flipper.abi, s.address, s.contract, "tend",
        [.int id, .int lot.value, .int bid.value]⟩ ∧
    (Flipper.dent s L id lot bid).ret =
      Except.ok ⟨s.web3, Flipper.abi, s.address, s.contract, "dent",
        [.int id, .int lot.value, .int bid.value]⟩ ∧
    (Flipper.deal s L id).ret =
      Except.ok ⟨s.web3, Flipper.abi, s.address, s.contract, "deal", [.int id]⟩ ∧
    (Flapper.tend s L id lot bid).ret =
      Except.ok ⟨s.web3, Flapper.abi, s.address, s.contract, "tend",
        [.int id, .int lot.value, .int bid.value]⟩ ∧
    (Flapper.deal s L id).ret =
      Except.ok ⟨s.web3, Flapper.abi, s.address, s.contract, "deal", [.int id]⟩ ∧
    (Flopper.dent s L id lot bid).ret =
      Except.ok ⟨s.web3, Flopper.abi, s.address, s.contract, "dent",
        [.int id, .int lot.value, .int bid.value]⟩ ∧
    (Flopper.deal s L id).ret =
      Except.ok ⟨s.web3, Flopper.abi, s.address, s.contract, "deal", [.int id]⟩ :=
  fun _ _ _ _ _ => ⟨rfl, rfl, rfl, rfl, rfl, rfl, rfl⟩

/-- Claim C5, counterexample: a debt-auction kick called with lot 5 and bid 7
produces the argument list `[gal, 5, 7]` — the initial lot (5) sits at position
1 and the fixed bid (7) at position 2, which differs from the claimed order
`[gal, bid, lot] = [gal, 7, 5]`. -/
theorem claim_C5_counterexample :
    (Flopper.kick sampleClient staleLedger sampleGal ⟨5⟩ ⟨7⟩).ret =
      Except.ok ⟨sampleClient.web3, Flopper.abi, sampleClient.address,
        sampleClient.contract, "kick",
        [CallArg.addr sampleGal.address, CallArg.int 5, CallArg.int 7]⟩ ∧
    ([CallArg.addr sampleGal.address, CallArg.int 5, CallArg.int 7] ==
      [CallArg.addr sampleGal.address, CallArg.int 7, CallArg.int 5]) = false :=
  ⟨rfl, by decide⟩

/-- Claim C5, amended: the debt-auction kick carries its arguments in the order
(beneficiary, initial lot, fixed bid): the lot value precedes the bid value in
the pending transaction's argument list. -/
theorem claim_C5_amended :
    ∀ (s : ClientState) (L : Ledger) (gal : Address) (lot bid : Wad),
    (Flopper.kick s L gal lot bid).ret =
      Except.ok ⟨s.web3, Flopper.abi, s.address, s.contract, "kick",
        [.addr gal.address, .int lot.value, .int bid.value]⟩ :=
  fun _ _ _ _ _ => rfl

/-- Claim C6, counterexample: on a fresh mechanism with no auction ever created
(`kicks = 0`), querying the record of id 7 does not fail with a not-found
error — the ledger mapping yields the zero record and the client decodes and
returns it. -/
theorem claim_C6_counterexample :
    emptyLedger.kicks = 0 ∧
    (Flapper.bids sampleClient emptyLedger 7).ret =
      Except.ok { bid := ⟨0⟩, lot := ⟨0⟩, guy := ⟨zeroAddressString⟩,
                  tic := 0, end_ := 0 } :=
  ⟨rfl, rfl⟩

/-- Claim C6, amended: the per-id record query performs no existence check and
can never fail with a not-found error: its result is always either a decoded
record or the decode error, and on a fresh ledger whose mapping yields the zero
record it returns that zero record decoded. -/
theorem claim_C6_amended :
    (∀ (s : ClientState) (L : Ledger) (i : Int),
      (Flapper.bids s L i).ret = Flapper.decodeBid (L.bids i) ∧
      (Flopper.bids s L i).ret = Flopper.decodeBid (L.bids i)) ∧
    (∀ a : List RawValue,
      Flapper.decodeBid a = Except.error SpecError.decodeError ∨
        ∃ b, Flapper.decodeBid a = Except.ok b) ∧
    (∀ a : List RawValue,
      Flopper.decodeBid a = Except.error SpecError.decodeError ∨
        ∃ b, Flopper.decodeBid a = Except.ok b) ∧
    (Flapper.bids sampleClient emptyLedger 7).ret =
      Except.ok { bid := ⟨0⟩, lot := ⟨0⟩, guy := ⟨zeroAddressString⟩,
                  tic := 0, end_ := 0 } ∧
    emptyLedger.kicks = 0 :=
  ⟨fun _ _ _ => ⟨rfl, rfl⟩, flapperDecodeBid_classify, flopperDecodeBid_classify,
   rfl, rfl⟩

/-- Claim C7: whenever either variant's record decoding succeeds, it read the
raw array positionally and fixed-shape — position 0 became the bid amount,
position 1 the lot amount, position 2 the high bidder, position 3 the bid
deadline, position 4 the hard deadline, and only the first five positions
matter (decoding the 5-element prefix gives the same record). -/
theorem claim_C7 :
    ∀ (a : List RawValue) (bF : Flapper.Bid) (bP : Flopper.Bid),
    (Flapper.decodeBid a = Except.ok bF →
      a.get? 0 = some (RawValue.int bF.bid.value) ∧
      a.get? 1 = some (RawValue.int bF.lot.value) ∧
      a.get? 2 = some (RawValue.addr bF.guy.address) ∧
      a.get? 3 = some (RawValue.int bF.tic) ∧
      a.get? 4 = some (RawValue.int bF.end_) ∧
      Flapper.decodeBid (a.take 5) = Except.ok bF) ∧
    (Flopper.decodeBid a = Except.ok bP →
      a.get? 0 = some (RawValue.int bP.bid.value) ∧
      a.get? 1 = some (RawValue.int bP.lot.value) ∧
      a.get? 2 = some (RawValue.addr bP.guy.address) ∧
      a.get? 3 = some (RawValue.int bP.tic) ∧
      a.get? 4 = some (RawValue.int bP.end_) ∧
      Flopper.decodeBid (a.take 5) = Except.ok bP) :=
  fun a bF bP =>
    ⟨fun h => flapperDecodeBid_ok a bF h, fun h => flopperDecodeBid_ok a bP h⟩

/-- Claim C7, witness: the positional facts instantiated on the concrete raw
record `sampleRaw`, whose decoding succeeds for both variants. -/
theorem claim_C7_witness :
    (sampleRaw.get? 0 = some (RawValue.int sampleFlapperBid.bid.value) ∧
     sampleRaw.get? 1 = some (RawValue.int sampleFlapperBid.lot.value) ∧
     sampleRaw.get? 2 = some (RawValue.addr sampleFlapperBid.guy.address) ∧
     sampleRaw.get? 3 = some (RawValue.int sampleFlapperBid.tic) ∧
     sampleRaw.get? 4 = some (RawValue.int sampleFlapperBid.end_) ∧
     Flapper.decodeBid (sampleRaw.take 5) = Except.ok sampleFlapperBid) ∧
    (sampleRaw.get? 0 = some (RawValue.int sampleFlopperBid.bid.value) ∧
     sampleRaw.get? 1 = some (RawValue.int sampleFlopperBid.lot.value) ∧
     sampleRaw.get? 2 = some (RawValue.addr sampleFlopperBid.guy.address) ∧
     sampleRaw.get? 3 = some (RawValue.int sampleFlopperBid.tic) ∧
     sampleRaw.get? 4 = some (RawValue.int sampleFlopperBid.end_) ∧
     Flopper.decodeBid (sampleRaw.take 5) = Except.ok sampleFlopperBid) :=
  ⟨(claim_C7 sampleRaw sampleFlapperBid sampleFlopperBid).1 rfl,
   (claim_C7 sampleRaw sampleFlapperBid sampleFlopperBid).2 rfl⟩

/-- Claim C8, counterexample: a collateral kick with `tab = 0`, `lot = 0` and
`bid = 0` — every supplied quantity non-positive — still returns a pending
transaction instead of failing with an invalid-parameters error. -/
theorem claim_C8_counterexample :
    (Flipper.kick sampleClient staleLedger sampleLad sampleGal 0 ⟨0⟩ ⟨0⟩).ret =
      Except.ok ⟨sampleClient.web3, Flipper.abi, sampleClient.address,
        sampleClient.contract, "kick",
        [CallArg.addr sampleLad.address, CallArg.addr sampleGal.address,
         CallArg.int 0, CallArg.int 0, CallArg.int 0]⟩ :=
  rfl

/-- Claim C8, amended: the collateral kick performs no positivity validation —
for every `tab`, `lot` and `bid`, including non-positive ones, it returns the
pending `kick` transaction. -/
theorem claim_C8_amended :
    ∀ (s : ClientState) (L : Ledger) (lad gal : Address) (tab : Int) (lot bid : Wad),
    Flipper.kick s L lad gal tab lot bid =
      ⟨.ok ⟨s.web3, Flipper.abi, s.address, s.contract, "kick",
        [.addr lad.address, .addr gal.address, .int tab, .int lot.value, .int bid.value]⟩,
       s, []⟩ :=
  fun _ _ _ _ _ _ _ => rfl

/-- Claim C9: every mutating operation of every variant leaves the client
object's fields (web3 handle, contract address, contract binding) exactly as
they were and performs no ledger call; it only constructs the request object. -/
theorem claim_C9 :
    ∀ (s : ClientState) (L : Ledger) (lad gal : Address) (tab id : Int) (lot bid : Wad),
    (Flipper.kick s L lad gal tab lot bid).self = s ∧
    (Flipper.kick s L lad gal tab lot bid).calls = [] ∧
    (Flipper.tend s L id lot bid).self = s ∧
    (Flipper.tend s L id lot bid).calls = [] ∧
    (Flipper.dent s L id lot bid).self = s ∧
    (Flipper.dent s L id lot bid).calls = [] ∧
    (Flipper.deal s L id).self = s ∧
    (Flipper.deal s L id).calls = [] ∧
    (Flapper.kick s L gal lot bid).self = s ∧
    (Flapper.kick s L gal lot bid).calls = [] ∧
    (Flapper.tend s L id lot bid).self = s ∧
    (Flapper.tend s L id lot bid).calls = [] ∧
    (Flapper.deal s L id).self = s ∧
    (Flapper.deal s L id).calls = [] ∧
    (Flopper.kick s L gal lot bid).self = s ∧
    (Flopper.kick s L gal lot bid).calls = [] ∧
    (Flopper.dent s L id lot bid).self = s ∧
    (Flopper.dent s L id lot bid).calls = [] ∧
    (Flopper.deal s L id).self = s ∧
    (Flopper.deal s L id).calls = [] :=
  fun _ _ _ _ _ _ _ _ =>
    ⟨rfl, rfl, rfl, rfl, rfl, rfl, rfl, rfl, rfl, rfl,
     rfl, rfl, rfl, rfl, rfl, rfl, rfl, rfl, rfl, rfl⟩

/-- Claim C10: the surplus-variant and debt-variant record decoders are
equivalent — on every raw array they produce records with equal bid, lot, guy,
tic and end field values (and fail in exactly the same cases). -/
theorem claim_C10 :
    ∀ a : List RawValue,
    (Flapper.decodeBid a).map Flapper.toTuple =
      (Flopper.decodeBid a).map Flopper.toTuple := by
  intro a
  rcases a with _ | ⟨⟨i0⟩ | ⟨s0⟩, _ | ⟨⟨i1⟩ | ⟨s1⟩, _ | ⟨⟨i2⟩ | ⟨s2⟩,
    _ | ⟨⟨i3⟩ | ⟨s3⟩, _ | ⟨⟨i4⟩ | ⟨s4⟩, rest⟩⟩⟩⟩⟩ <;> rfl
